import Mathlib

/-!
Shallow embedding of the JWT authentication core of the campusbook backend
(src/authentication/authentication.py, src/authentication/models.py,
src/authentication/views.py, src/users/views.py), together with theorems
settling the behavioural claims about it.

Modelling conventions:
* Machine time is a natural number of seconds passed explicitly as `now`.
* `uuid.uuid4()` is modelled as a fresh-identifier supply: the store carries
  a counter `nextUuid`, each draw yields the current counter value, and the
  ghost history `issuedJtis` records every identifier ever handed out, so that
  the uniqueness guarantee of version-4 UUIDs becomes the freshness invariant
  `Store.wf`.
* Database rows live in Lean lists; Django's `objects.get(...)` becomes
  `List.find?` and the `unique=True` column constraints of the models become
  part of the invariant `Store.wf`.
-/

deriving instance DecidableEq for Except

namespace CampusBook

/-- Identifier embedded in tokens (models the `jti` UUID strings). -/
abbrev Jti := Nat

/-- Identifier for an asymmetric key pair; encoding signs with the private
half and decoding verifies with the public half of the same pair, so a single
identifier models the pair. -/
abbrev KeyId := Nat

/-- A JWT claim value: the payloads of this system only carry strings and
numeric timestamps. -/
inductive ClaimValue where
  | str (s : String)
  | num (n : Nat)
deriving DecidableEq, Repr

/-- The logical token payload (spec §3 TokenPayload): `user_id`, optional
`email` (access tokens only), `type`, `jti`, `iat`, `exp`. -/
structure TokenPayload where
  user_id : String
  email : Option String
  type : String
  jti : Jti
  iat : Nat
  exp : Nat
deriving DecidableEq, Repr

/-- A signed token: the serialized claim set plus the identifier of the key
pair it was signed with (the signature framing). -/
structure Token where
  claims : List (String × ClaimValue)
  keyId : KeyId
deriving DecidableEq, Repr

/-- Dictionary lookup on a serialized claim set, as `payload.get(k)`. -/
def claimLookup (cs : List (String × ClaimValue)) (k : String) : Option ClaimValue :=
  (cs.find? (fun c => c.1 == k)).map (fun c => c.2)

/-- Serialize a payload into its claim set, in the order the source builds the
payload dictionaries (`email` present only when the payload carries one). -/
def encodeClaims (p : TokenPayload) : List (String × ClaimValue) :=
  [("user_id", ClaimValue.str p.user_id)]
    ++ (match p.email with
        | some e => [("email", ClaimValue.str e)]
        | none => [])
    ++ [("type", ClaimValue.str p.type),
        ("jti", ClaimValue.num p.jti),
        ("iat", ClaimValue.num p.iat),
        ("exp", ClaimValue.num p.exp)]

/-- Reconstruct a payload from a serialized claim set; fails when a required
claim is absent or has the wrong shape. -/
def payloadOfClaims (cs : List (String × ClaimValue)) : Option TokenPayload :=
  match claimLookup cs "user_id", claimLookup cs "type", claimLookup cs "jti",
        claimLookup cs "iat", claimLookup cs "exp" with
  | some (ClaimValue.str uid), some (ClaimValue.str ty), some (ClaimValue.num j),
    some (ClaimValue.num ia), some (ClaimValue.num ex) =>
      match claimLookup cs "email" with
      | some (ClaimValue.str em) =>
          some { user_id := uid, email := some em, type := ty, jti := j, iat := ia, exp := ex }
      | some (ClaimValue.num _) => none
      | none =>
          some { user_id := uid, email := none, type := ty, jti := j, iat := ia, exp := ex }
  | _, _, _, _, _ => none

inductive JwtError where
  | expired
  | malformed
deriving DecidableEq, Repr

/-- Modelled from the spec: the TokenCodec (`jwt.encode` of the PyJWT library,
not part of src/) serializes the claims and signs them with the private half
of the key pair (spec §4.1 Encode). -/
def jwtEncode (p : TokenPayload) (key : KeyId) : Token :=
  { claims := encodeClaims p, keyId := key }

/-- Modelled from the spec: the TokenCodec (`jwt.decode` of the PyJWT library,
not part of src/) verifies the signature with the public half of the key pair
and checks the temporal claim, failing with `ExpiredError` when
`now > expiresAt` and with `MalformedError` on any structural or signature
mismatch (spec §4.1 Decode). -/
def jwtDecode (t : Token) (key : KeyId) (now : Nat) : Except JwtError TokenPayload :=
  if t.keyId != key then Except.error JwtError.malformed
  else
    match payloadOfClaims t.claims with
    | none => Except.error JwtError.malformed
    | some p => if p.exp < now then Except.error JwtError.expired else Except.ok p

/-- Settings consumed by the token manager: the signing key pair and the two
token lifetimes (`JWT_ACCESS_TOKEN_LIFETIME`, `JWT_REFRESH_TOKEN_LIFETIME`). -/
structure Config where
  keyId : KeyId
  accessLifetime : Nat
  refreshLifetime : Nat
deriving DecidableEq, Repr

/-- The slice of the `User` row the authentication core reads
(src/users/models.py): primary key, email (the USERNAME_FIELD), password and
the `is_active` flag. -/
structure DBUser where
  id : String
  email : String
  password : String
  is_active : Bool
deriving DecidableEq, Repr

/-- `UserSession` row (src/authentication/models.py). -/
structure UserSession where
  sessionId : Nat
  userId : String
  refresh_token : Token
  access_token_jti : Jti
  created_at : Nat
  expires_at : Nat
  ip_address : String
  user_agent : String
  is_active : Bool
deriving DecidableEq, Repr

/-- `UserSession.is_expired`: `timezone.now() > self.expires_at`. -/
def UserSession.is_expired (s : UserSession) (now : Nat) : Bool :=
  s.expires_at < now

/-- `LoginAttempt` row (src/authentication/models.py), restricted to the
fields the claims are about. -/
structure LoginAttempt where
  email : String
  ip_address : String
  user_agent : String
  success : Bool
  failure_reason : Option String
deriving DecidableEq, Repr

/-- The persistent state: user table, session table, login-attempt audit log,
plus the fresh-identifier supply modelling `uuid.uuid4()` (`nextUuid` is the
next identifier to be drawn, `issuedJtis` the ghost history of every `jti`
ever issued). -/
structure Store where
  users : List DBUser
  sessions : List UserSession
  attempts : List LoginAttempt
  nextUuid : Nat
  issuedJtis : List Jti
deriving DecidableEq, Repr

/-- The inbound request surface the core reads: client address and agent. -/
structure Request where
  ip : String
  user_agent : String
deriving DecidableEq, Repr

/-- Store invariant: row uniqueness enforced by the database (`unique=True`
on `refresh_token` and `access_token_jti`, primary keys on users and
sessions) together with freshness of the UUID supply. -/
def Store.wf (st : Store) : Prop :=
  (∀ u1 ∈ st.users, ∀ u2 ∈ st.users, u1.id = u2.id → u1 = u2) ∧
  (∀ s1 ∈ st.sessions, ∀ s2 ∈ st.sessions, s1.sessionId = s2.sessionId → s1 = s2) ∧
  (∀ s1 ∈ st.sessions, ∀ s2 ∈ st.sessions,
      s1.access_token_jti = s2.access_token_jti → s1 = s2) ∧
  (∀ s1 ∈ st.sessions, ∀ s2 ∈ st.sessions, s1.refresh_token = s2.refresh_token → s1 = s2) ∧
  (∀ j ∈ st.issuedJtis, j < st.nextUuid) ∧
  (∀ s ∈ st.sessions, s.access_token_jti < st.nextUuid)

instance (st : Store) : Decidable st.wf := by
  unfold Store.wf; infer_instance

/-! ## Python string primitives

The source manipulates headers and login fields with `str.lower()`,
`str.strip()`, `str.split()` and `in`.  These are modelled structurally over
`String.data` so that concrete inputs evaluate inside the kernel. -/

/-- Python `str.lower()`. -/
def pyLower (s : String) : String := ⟨s.data.map Char.toLower⟩

/-- Splitting pass of Python `str.split()`: split on runs of whitespace,
producing no empty pieces. -/
def pySplitAux (cs : List Char) (acc : List Char) : List (List Char) :=
  match cs with
  | [] => if acc = [] then [] else [acc.reverse]
  | c :: rest =>
      if c.isWhitespace then
        if acc = [] then pySplitAux rest []
        else acc.reverse :: pySplitAux rest []
      else pySplitAux rest (c :: acc)

/-- Python `str.split()` with no argument. -/
def pySplitWS (s : String) : List String := (pySplitAux s.data []).map (fun l => ⟨l⟩)

/-- Python `str.strip()` with no argument. -/
def pyTrim (s : String) : String :=
  ⟨((s.data.dropWhile Char.isWhitespace).reverse.dropWhile Char.isWhitespace).reverse⟩

/-- Python `c in s` for a single character. -/
def pyContains (s : String) (c : Char) : Bool := s.data.contains c

/-! ## Operations of the authentication core -/

/-- Authentication error raised as `AuthenticationFailed(msg)`. -/
inductive AuthError where
  | authenticationFailed (msg : String)
deriving DecidableEq, Repr

/-- `User.objects.get(id=user_id, is_active=True)` as an `Option`. -/
def findActiveUser (st : Store) (uid : String) : Option DBUser :=
  st.users.find? (fun u => u.id == uid && u.is_active)

/-- `JWTAuthentication._verify_token_session`: the session must exist for this
`jti` and user with `is_active=True`, and must not be independently expired. -/
def verify_token_session (jti : Jti) (user : DBUser) (st : Store) (now : Nat) : Bool :=
  match st.sessions.find?
      (fun s => s.access_token_jti == jti && s.userId == user.id && s.is_active) with
  | some s => ! s.is_expired now
  | none => false

/-- `JWTAuthentication._authenticate_token`: decode the token, require a
non-empty `user_id` and `type == "access"`, resolve an active user, and
cross-check the session.  The best-effort `_update_user_login_info` write only
touches user columns outside this model (`last_login`, `last_login_ip`) and
never affects the result, so it is elided. -/
def authenticate_token (tok : Token) (st : Store) (now : Nat) (cfg : Config) :
    Except AuthError (DBUser × TokenPayload) :=
  match jwtDecode tok cfg.keyId now with
  | Except.error JwtError.expired =>
      Except.error (AuthError.authenticationFailed "Token has expired")
  | Except.error JwtError.malformed =>
      Except.error (AuthError.authenticationFailed "Invalid token")
  | Except.ok payload =>
      if payload.user_id == "" || payload.type != "access" then
        Except.error (AuthError.authenticationFailed "Invalid token payload")
      else
        match findActiveUser st payload.user_id with
        | none => Except.error (AuthError.authenticationFailed "User not found or inactive")
        | some user =>
            if verify_token_session payload.jti user st now then
              Except.ok (user, payload)
            else
              Except.error (AuthError.authenticationFailed "Token session invalid or expired")

/-- Result of the header-extraction step of `JWTAuthentication.authenticate`:
either the unauthenticated signal (`None` in the source), the extracted bearer
token handed on to `_authenticate_token`, or a hard failure. -/
inductive GateResult where
  | anonymous
  | token (t : String)
  | failed (msg : String)
deriving DecidableEq, Repr

/-- `auth_header.split()`: split on whitespace, dropping empty pieces. -/
def splitHeader (h : String) : List String := pySplitWS h

/-- Header handling of `JWTAuthentication.authenticate`: a missing header —
`request.META.get` returning `None` — or a falsy (empty) one yields `None`;
otherwise the header must split into exactly two parts whose first part
lower-cases to `"bearer"`, else `AuthenticationFailed` is raised. -/
def authenticate_header (header : Option String) : GateResult :=
  match header with
  | none => GateResult.anonymous
  | some h =>
      if h == "" then GateResult.anonymous
      else
        match splitHeader h with
        | [scheme, tok] =>
            if pyLower scheme == "bearer" then GateResult.token tok
            else GateResult.failed "Invalid authorization header format"
        | _ => GateResult.failed "Invalid authorization header format"

/-- What `JWTTokenManager.create_token_pair` returns to the caller. -/
structure TokenPairResult where
  access_token : Token
  refresh_token : Token
  access_token_expires_at : Nat
  refresh_token_expires_at : Nat
  session_id : Nat
deriving DecidableEq, Repr

/-- `JWTTokenManager.create_token_pair`: draw two fresh `jti`s, encode the
access and refresh tokens, and create one new `UserSession` row (its `uuid4`
primary key is the third draw) with `expires_at` set to the refresh expiry. -/
def create_token_pair (user : DBUser) (req : Request) (cfg : Config) (now : Nat)
    (st : Store) : TokenPairResult × Store :=
  let access_jti : Jti := st.nextUuid
  let refresh_jti : Jti := st.nextUuid + 1
  let sid : Nat := st.nextUuid + 2
  let access_payload : TokenPayload :=
    { user_id := user.id, email := some user.email, type := "access",
      jti := access_jti, iat := now, exp := now + cfg.accessLifetime }
  let access_token := jwtEncode access_payload cfg.keyId
  let refresh_payload : TokenPayload :=
    { user_id := user.id, email := none, type := "refresh",
      jti := refresh_jti, iat := now, exp := now + cfg.refreshLifetime }
  let refresh_token := jwtEncode refresh_payload cfg.keyId
  let session : UserSession :=
    { sessionId := sid, userId := user.id, refresh_token := refresh_token,
      access_token_jti := access_jti, created_at := now,
      expires_at := now + cfg.refreshLifetime,
      ip_address := req.ip, user_agent := req.user_agent, is_active := true }
  ({ access_token := access_token, refresh_token := refresh_token,
     access_token_expires_at := now + cfg.accessLifetime,
     refresh_token_expires_at := now + cfg.refreshLifetime, session_id := sid },
   { st with sessions := st.sessions ++ [session],
             nextUuid := st.nextUuid + 3,
             issuedJtis := st.issuedJtis ++ [access_jti, refresh_jti] })

/-- `UserSession.deactivate` applied through the ORM: flip `is_active` on the
row with this primary key. -/
def deactivateSession (st : Store) (sid : Nat) : Store :=
  let updated := st.sessions.map (fun s =>
    if s.sessionId == sid then { s with is_active := false } else s)
  { st with sessions := updated }

/-- `JWTTokenManager.refresh_access_token`: decode the refresh token, require
`type == "refresh"`, resolve the active user and the active session holding
this exact refresh-token value; deactivate and fail if the session row is
expired; otherwise mint a fresh access token and overwrite only the session's
`access_token_jti` (`save(update_fields=['access_token_jti'])`). -/
def refresh_access_token (rt : Token) (cfg : Config) (now : Nat) (st : Store) :
    Except AuthError Token × Store :=
  match jwtDecode rt cfg.keyId now with
  | Except.error _ =>
      (Except.error (AuthError.authenticationFailed "Invalid or expired refresh token"), st)
  | Except.ok payload =>
      if payload.type != "refresh" then
        (Except.error (AuthError.authenticationFailed "Invalid refresh token type"), st)
      else
        match findActiveUser st payload.user_id with
        | none => (Except.error (AuthError.authenticationFailed "Invalid refresh token"), st)
        | some user =>
            match st.sessions.find?
                (fun s => s.refresh_token == rt && s.userId == user.id && s.is_active) with
            | none =>
                (Except.error (AuthError.authenticationFailed "Invalid refresh token"), st)
            | some session =>
                if session.is_expired now then
                  (Except.error (AuthError.authenticationFailed "Refresh token expired"),
                   deactivateSession st session.sessionId)
                else
                  let access_jti : Jti := st.nextUuid
                  let access_payload : TokenPayload :=
                    { user_id := user.id, email := some user.email, type := "access",
                      jti := access_jti, iat := now, exp := now + cfg.accessLifetime }
                  let rotated := st.sessions.map (fun s =>
                    if s.sessionId == session.sessionId then
                      { s with access_token_jti := access_jti } else s)
                  (Except.ok (jwtEncode access_payload cfg.keyId),
                   { st with sessions := rotated, nextUuid := st.nextUuid + 1,
                             issuedJtis := st.issuedJtis ++ [access_jti] })

/-- `JWTTokenManager.revoke_token`: deactivate the active session holding this
refresh-token value, returning whether one was found. -/
def revoke_token (rt : Token) (st : Store) : Bool × Store :=
  match st.sessions.find? (fun s => s.refresh_token == rt && s.is_active) with
  | some session => (true, deactivateSession st session.sessionId)
  | none => (false, st)

/-- `JWTTokenManager.revoke_all_user_tokens`: bulk `update(is_active=False)`
on the user's active sessions; Django's `update` returns the matched count. -/
def revoke_all_user_tokens (user : DBUser) (st : Store) : Nat × Store :=
  let deactivated := st.sessions.map (fun s =>
    if s.userId == user.id && s.is_active then { s with is_active := false } else s)
  ((st.sessions.filter (fun s => s.userId == user.id && s.is_active)).length,
   { st with sessions := deactivated })

/-! ## The login endpoint (src/authentication/views.py, LoginAPIView.post) -/

/-- Error envelope produced by `ErrorResponse.create` as the login view fills
it in: error kind, human message and HTTP status code (the timestamp carries
no information for the claims). -/
structure ErrorResp where
  error : String
  message : String
  status_code : Nat
deriving DecidableEq, Repr

/-- Outcome of `LoginAPIView.post`. -/
inductive LoginOutcome where
  | failure (r : ErrorResp)
  | success (tokens : TokenPairResult)
deriving DecidableEq, Repr

/-- `LoginAPIView._validate_login_data`: email must be non-empty after
stripping and contain an `@`, password must be non-empty; on success the
email is lower-cased. -/
def validate_login_data (email password : String) : Option (String × String) :=
  let e := pyTrim email
  if e == "" then none
  else if ! pyContains e '@' then none
  else if password == "" then none
  else some (pyLower e, password)

/-- `LoginAPIView._log_login_attempt`: append one audit row. -/
def log_login_attempt (st : Store) (email : String) (req : Request) (success : Bool)
    (failure_reason : Option String) : Store :=
  { st with attempts := st.attempts ++
      [{ email := email, ip_address := req.ip, user_agent := req.user_agent,
         success := success, failure_reason := failure_reason }] }

/-- Modelled from the spec: Django's `authenticate` (ModelBackend, not part of
src/) resolves the user by the USERNAME_FIELD (email), verifies the password
against the credential store, and refuses inactive users — the external
credential-verification collaborator of spec §1/§6. -/
def djangoAuthenticate (st : Store) (email password : String) : Option DBUser :=
  match st.users.find? (fun u => u.email == email) with
  | none => none
  | some u => if u.password == password && u.is_active then some u else none

/-- `LoginAPIView.post`: validate the body, log a `success=False` attempt,
authenticate; on failure answer 401 with a message chosen by whether an
account with that email exists, logging the distinct `failure_reason`; on
success issue a token pair and log a `success=True` attempt. -/
def login_post (email password : String) (req : Request) (cfg : Config) (now : Nat)
    (st : Store) : LoginOutcome × Store :=
  match validate_login_data email password with
  | none =>
      (LoginOutcome.failure
        { error := "ValidationError", message := "Invalid login credentials",
          status_code := 400 }, st)
  | some (e, pw) =>
      let st1 := log_login_attempt st e req false none
      match djangoAuthenticate st1 e pw with
      | none =>
          if st1.users.any (fun u => u.email == e) then
            (LoginOutcome.failure
              { error := "AuthenticationError", message := "Invalid password.",
                status_code := 401 },
             log_login_attempt st1 e req false (some "invalid_password"))
          else
            (LoginOutcome.failure
              { error := "AuthenticationError",
                message := "No account found with this email address.",
                status_code := 401 },
             log_login_attempt st1 e req false (some "user_not_found"))
      | some user =>
          if ! user.is_active then
            (LoginOutcome.failure
              { error := "AuthenticationError",
                message := "This account has been disabled.", status_code := 401 },
             log_login_attempt st1 e req false (some "account_disabled"))
          else
            let res := create_token_pair user req cfg now st1
            (LoginOutcome.success res.1, log_login_attempt res.2 e req true none)

/-! ## The spec's own success condition for VerifyAccess (claim C1)

This definition follows the words of the claim, not the source; it exists to
be compared with `authenticate_token`. -/

/-- The success condition claim C1 states for VerifyAccess: the token is
well-formed and signature-valid, unexpired, carries `type == "access"`, and
its `jti` equals the `access_token_jti` of a session with `active == true`
whose own `expires_at` has not passed. -/
def specVerifyAccessOk (tok : Token) (cfg : Config) (now : Nat) (st : Store) : Prop :=
  ∃ p, payloadOfClaims tok.claims = some p ∧ tok.keyId = cfg.keyId ∧
    ¬ p.exp < now ∧ p.type = "access" ∧
    ∃ s ∈ st.sessions, s.access_token_jti = p.jti ∧ s.is_active = true ∧
      ¬ s.expires_at < now

/-! ## Concrete example values used by counterexamples and witnesses -/

def exCfg : Config := { keyId := 7, accessLifetime := 10, refreshLifetime := 100 }

def exPayload : TokenPayload :=
  { user_id := "u1", email := some "a@b.c", type := "access", jti := 5, iat := 0, exp := 100 }

def exRefreshPayload : TokenPayload :=
  { user_id := "u1", email := none, type := "refresh", jti := 6, iat := 0, exp := 100 }

def exToken : Token := jwtEncode exPayload 7

def exRefreshToken : Token := jwtEncode exRefreshPayload 7

def exSession : UserSession :=
  { sessionId := 0, userId := "u1", refresh_token := exRefreshToken,
    access_token_jti := 5, created_at := 0, expires_at := 100,
    ip_address := "9.9.9.9", user_agent := "ua", is_active := true }

def exUser : DBUser :=
  { id := "u1", email := "a@b.c", password := "pw", is_active := true }

def exReq : Request := { ip := "1.2.3.4", user_agent := "ua" }

/-- Store for the C1 counterexample: the session cross-check would succeed but
the user table holds no matching active account. -/
def stC1 : Store :=
  { users := [], sessions := [exSession], attempts := [], nextUuid := 10,
    issuedJtis := [5, 6] }

/-- Healthy store: one active user owning one active session. -/
def stW : Store :=
  { users := [exUser], sessions := [exSession], attempts := [], nextUuid := 10,
    issuedJtis := [5, 6] }

def exNewAccessPayload : TokenPayload :=
  { user_id := "u1", email := some "a@b.c", type := "access", jti := 10, iat := 5,
    exp := 15 }

/-- The healthy store after one successful refresh at time 5. -/
def exRotated : Store :=
  { users := [exUser], sessions := [{ exSession with access_token_jti := 10 }],
    attempts := [], nextUuid := 11, issuedJtis := [5, 6, 10] }


/-! ## Helper lemmas -/

theorem payloadOfClaims_encode (p : TokenPayload) :
    payloadOfClaims (encodeClaims p) = some p := by
  obtain ⟨uid, em, ty, j, ia, ex⟩ := p
  cases em <;> rfl

theorem jwtDecode_ok {t : Token} {key : KeyId} {now : Nat} {p : TokenPayload}
    (h : jwtDecode t key now = Except.ok p) :
    t.keyId = key ∧ payloadOfClaims t.claims = some p ∧ ¬ p.exp < now := by
  by_cases hk : t.keyId = key
  · simp only [jwtDecode, hk, bne_self_eq_false, Bool.false_eq_true, if_false] at h
    cases hpc : payloadOfClaims t.claims with
    | none => rw [hpc] at h; cases h
    | some q =>
        rw [hpc] at h
        by_cases he : q.exp < now
        · simp [he] at h
        · simp only [he, if_false] at h
          obtain rfl : q = p := by injection h
          exact ⟨hk, rfl, he⟩
  · simp [jwtDecode, hk] at h

theorem jwtDecode_eq_ok {t : Token} {key : KeyId} {now : Nat} {p : TokenPayload}
    (hk : t.keyId = key) (hpc : payloadOfClaims t.claims = some p)
    (he : ¬ p.exp < now) :
    jwtDecode t key now = Except.ok p := by
  simp [jwtDecode, hk, hpc, he]

theorem verify_token_session_iff {jti : Jti} {u : DBUser} {st : Store} {now : Nat}
    (hwf : st.wf) :
    verify_token_session jti u st now = true ↔
      ∃ s ∈ st.sessions, s.access_token_jti = jti ∧ s.userId = u.id ∧
        s.is_active = true ∧ ¬ s.expires_at < now := by
  obtain ⟨-, -, hjti, -, -, -⟩ := hwf
  constructor
  · intro h
    unfold verify_token_session at h
    cases hf : st.sessions.find?
        (fun s => s.access_token_jti == jti && s.userId == u.id && s.is_active) with
    | none => rw [hf] at h; cases h
    | some s =>
        rw [hf] at h
        have hp := List.find?_some hf
        have hmem := List.mem_of_find?_eq_some hf
        simp only [Bool.and_eq_true, beq_iff_eq] at hp
        refine ⟨s, hmem, hp.1.1, hp.1.2, hp.2, ?_⟩
        simpa [UserSession.is_expired] using h
  · rintro ⟨s, hmem, hjeq, hueq, hact, hexp⟩
    unfold verify_token_session
    have hsome : (st.sessions.find?
        (fun s => s.access_token_jti == jti && s.userId == u.id && s.is_active)).isSome := by
      rw [List.find?_isSome]
      exact ⟨s, hmem, by simp [hjeq, hueq, hact]⟩
    cases hf : st.sessions.find?
        (fun s => s.access_token_jti == jti && s.userId == u.id && s.is_active) with
    | none => rw [hf] at hsome; cases hsome
    | some s' =>
        have hp := List.find?_some hf
        have hmem' := List.mem_of_find?_eq_some hf
        simp only [Bool.and_eq_true, beq_iff_eq] at hp
        have : s' = s := hjti s' hmem' s hmem (hp.1.1.trans hjeq.symm)
        subst this
        simpa [UserSession.is_expired] using hexp

theorem authenticate_token_ok_iff {tok : Token} {st : Store} {now : Nat} {cfg : Config}
    (hwf : st.wf) :
    (∃ r, authenticate_token tok st now cfg = Except.ok r) ↔
      ∃ p, payloadOfClaims tok.claims = some p ∧ tok.keyId = cfg.keyId ∧
        ¬ p.exp < now ∧ p.user_id ≠ "" ∧ p.type = "access" ∧
        (∃ u ∈ st.users, u.id = p.user_id ∧ u.is_active = true) ∧
        (∃ s ∈ st.sessions, s.access_token_jti = p.jti ∧ s.userId = p.user_id ∧
          s.is_active = true ∧ ¬ s.expires_at < now) := by
  constructor
  · rintro ⟨r, h⟩
    unfold authenticate_token at h
    split at h
    · cases h
    · cases h
    · rename_i q hdec
      obtain ⟨hk, hpc, hexp⟩ := jwtDecode_ok hdec
      split at h
      · cases h
      · rename_i hguard
        simp only [Bool.or_eq_true, beq_iff_eq, bne_iff_ne, ne_eq, not_or,
          not_not] at hguard
        split at h
        · cases h
        · rename_i u' hfu
          split at h
          · rename_i hv
            have hfu' : st.users.find? (fun x => x.id == q.user_id && x.is_active)
                = some u' := by simpa [findActiveUser] using hfu
            have hup := List.find?_some hfu'
            have humem := List.mem_of_find?_eq_some hfu'
            simp only [Bool.and_eq_true, beq_iff_eq] at hup
            obtain ⟨s, hsmem, hsj, hsu, hsact, hsexp⟩ :=
              (verify_token_session_iff hwf).mp hv
            exact ⟨q, hpc, hk, hexp, hguard.1, hguard.2,
              ⟨u', humem, hup.1, hup.2⟩,
              ⟨s, hsmem, hsj, hsu.trans hup.1, hsact, hsexp⟩⟩
          · cases h
  · rintro ⟨p, hpc, hk, hexp, huid, hty, ⟨u, humem, huid2, huact⟩,
      ⟨s, hsmem, hsj, hsu, hsact, hsexp⟩⟩
    have hdec := jwtDecode_eq_ok hk hpc hexp
    have hguard : (p.user_id == "" || p.type != "access") = false := by
      simp [huid, hty]
    have hfsome : (st.users.find? (fun x => x.id == p.user_id && x.is_active)).isSome := by
      rw [List.find?_isSome]
      exact ⟨u, humem, by simp [huid2, huact]⟩
    cases hfu : st.users.find? (fun x => x.id == p.user_id && x.is_active) with
    | none => rw [hfu] at hfsome; cases hfsome
    | some u2 =>
        have hup := List.find?_some hfu
        simp only [Bool.and_eq_true, beq_iff_eq] at hup
        have hfu2 : findActiveUser st p.user_id = some u2 := by
          simpa [findActiveUser] using hfu
        have hv : verify_token_session p.jti u2 st now = true := by
          rw [verify_token_session_iff hwf]
          exact ⟨s, hsmem, hsj, hsu.trans hup.1.symm, hsact, hsexp⟩
        refine ⟨(u2, p), ?_⟩
        simp only [authenticate_token, hdec, hguard, Bool.false_eq_true, if_false,
          hfu2, hv, if_true]

/-! ## Claim C1 -/

/-- Claim C1, counterexample: every condition the claim lists for success
holds (`specVerifyAccessOk`), yet `_authenticate_token` fails, because the
token's `user_id` resolves to no active user row — a condition the claim
omits. -/
theorem c1_counterexample :
    specVerifyAccessOk exToken exCfg 5 stC1 ∧
    authenticate_token exToken stC1 5 exCfg =
      Except.error (AuthError.authenticationFailed "User not found or inactive") := by
  refine ⟨⟨exPayload, ?_, ?_, ?_, ?_, ⟨exSession, ?_, ?_, ?_, ?_⟩⟩, ?_⟩ <;> decide

/-- Claim C1 (amended): VerifyAccess (`_authenticate_token`) succeeds iff the
token decodes under the configured key pair, is unexpired, carries a
non-empty `user_id` and `type == "access"`, the `user_id` names an existing
user row with `is_active=True` — the condition the original claim omits —
and the token's `jti` equals the `access_token_jti` of a session of that user
with `active==true` whose own `expires_at` has not passed. -/
theorem c1_verify_access_iff (tok : Token) (st : Store) (now : Nat) (cfg : Config)
    (hwf : st.wf) :
    (∃ r, authenticate_token tok st now cfg = Except.ok r) ↔
      ∃ p, payloadOfClaims tok.claims = some p ∧ tok.keyId = cfg.keyId ∧
        ¬ p.exp < now ∧ p.user_id ≠ "" ∧ p.type = "access" ∧
        (∃ u ∈ st.users, u.id = p.user_id ∧ u.is_active = true) ∧
        (∃ s ∈ st.sessions, s.access_token_jti = p.jti ∧ s.userId = p.user_id ∧
          s.is_active = true ∧ ¬ s.expires_at < now) :=
  authenticate_token_ok_iff hwf

/-- Witness for C1: in the healthy store the amended equivalence concretely
yields a successful authentication. -/
theorem c1_witness :
    ∃ r, authenticate_token exToken stW 5 exCfg = Except.ok r := by
  refine (c1_verify_access_iff exToken stW 5 exCfg (by decide)).mpr
    ⟨exPayload, ?_, ?_, ?_, ?_, ?_, ⟨exUser, ?_, ?_, ?_⟩,
      ⟨exSession, ?_, ?_, ?_, ?_, ?_⟩⟩ <;> decide

/-! ## Claim C8 -/

/-- Claim C8 (confirmed): decoding an encoded token under the same key pair
recovers the original payload on every claim field (`user_id`, `email`,
`type`, `jti`, `iat`, `exp`); only the signature framing (`keyId`) is outside
the recovered payload.  The decode-side temporal check requires the payload
not to be expired at decode time. -/
theorem c8_decode_encode_roundtrip (p : TokenPayload) (key : KeyId) (now : Nat)
    (h : ¬ p.exp < now) :
    jwtDecode (jwtEncode p key) key now = Except.ok p :=
  jwtDecode_eq_ok rfl (payloadOfClaims_encode p) h

/-- Witness for C8 at a concrete payload. -/
theorem c8_witness :
    ¬ exPayload.exp < 5 ∧
    jwtDecode (jwtEncode exPayload 7) 7 5 = Except.ok exPayload :=
  ⟨by decide, c8_decode_encode_roundtrip exPayload 7 5 (by decide)⟩

/-! ## Claim C7 -/

/-- Claim C7, counterexample: the empty string is a present authorization
header carrying zero token values, yet the gate answers the unauthenticated
signal rather than a hard failure, because the source treats any falsy header
(`if not auth_header`) like an absent one. -/
theorem c7_counterexample :
    splitHeader "" = [] ∧ authenticate_header (some "") = GateResult.anonymous :=
  ⟨rfl, rfl⟩

/-- Claim C7 (amended): an absent or empty authorization header yields the
unauthenticated signal (`None`); a nonempty header is accepted exactly when
it splits into a case-insensitive `bearer` scheme followed by exactly one
token value, and every other nonempty shape is a hard authentication
failure, never a pass-through. -/
theorem c7_gate_characterization :
    authenticate_header none = GateResult.anonymous ∧
    authenticate_header (some "") = GateResult.anonymous ∧
    (∀ h s t, h ≠ "" → splitHeader h = [s, t] → pyLower s = "bearer" →
      authenticate_header (some h) = GateResult.token t) ∧
    (∀ h s t, h ≠ "" → splitHeader h = [s, t] → pyLower s ≠ "bearer" →
      authenticate_header (some h) =
        GateResult.failed "Invalid authorization header format") ∧
    (∀ h, h ≠ "" → (splitHeader h).length ≠ 2 →
      authenticate_header (some h) =
        GateResult.failed "Invalid authorization header format") := by
  refine ⟨rfl, rfl, ?_, ?_, ?_⟩
  · intro h s t hne hsplit hscheme
    simp [authenticate_header, hne, hsplit, hscheme]
  · intro h s t hne hsplit hscheme
    simp [authenticate_header, hne, hsplit, hscheme]
  · intro h hne hlen
    cases hs : splitHeader h with
    | nil => simp [authenticate_header, hne, hs]
    | cons a l =>
        cases l with
        | nil => simp [authenticate_header, hne, hs]
        | cons b l2 =>
            cases l2 with
            | nil => exact absurd (by rw [hs]; rfl) hlen
            | cons c l3 => simp [authenticate_header, hne, hs]

/-- Witness for C7: a well-shaped bearer header is accepted with its token. -/
theorem c7_witness :
    authenticate_header (some "Bearer abc") = GateResult.token "abc" :=
  c7_gate_characterization.2.2.1 "Bearer abc" "Bearer" "abc"
    (by decide) (by decide) (by decide)

/-! ## Claim C5 -/

/-- Claim C5 (confirmed): `create_token_pair` issues an access and a refresh
token whose `jti`s differ from each other and from every previously issued
`jti`, appends exactly one new active session row linked to those
identifiers, and leaves every pre-existing session row untouched, so a
subject accumulates concurrent sessions. -/
theorem c5_issue_pair (user : DBUser) (req : Request) (cfg : Config) (now : Nat)
    (st : Store) (hwf : st.wf) :
    ∃ pa pr s,
      payloadOfClaims (create_token_pair user req cfg now st).1.access_token.claims
        = some pa ∧
      payloadOfClaims (create_token_pair user req cfg now st).1.refresh_token.claims
        = some pr ∧
      pa.user_id = user.id ∧ pa.type = "access" ∧
      pr.user_id = user.id ∧ pr.type = "refresh" ∧
      pa.jti ≠ pr.jti ∧
      (∀ j ∈ st.issuedJtis, j ≠ pa.jti ∧ j ≠ pr.jti) ∧
      (create_token_pair user req cfg now st).2.sessions = st.sessions ++ [s] ∧
      s.is_active = true ∧ s.userId = user.id ∧
      s.access_token_jti = pa.jti ∧
      s.refresh_token = (create_token_pair user req cfg now st).1.refresh_token ∧
      s.expires_at = now + cfg.refreshLifetime ∧
      (create_token_pair user req cfg now st).2.issuedJtis
        = st.issuedJtis ++ [pa.jti, pr.jti] := by
  obtain ⟨-, -, -, -, hfresh, -⟩ := hwf
  refine ⟨{ user_id := user.id, email := some user.email, type := "access",
            jti := st.nextUuid, iat := now, exp := now + cfg.accessLifetime },
          { user_id := user.id, email := none, type := "refresh",
            jti := st.nextUuid + 1, iat := now, exp := now + cfg.refreshLifetime },
          { sessionId := st.nextUuid + 2, userId := user.id,
            refresh_token := (create_token_pair user req cfg now st).1.refresh_token,
            access_token_jti := st.nextUuid, created_at := now,
            expires_at := now + cfg.refreshLifetime,
            ip_address := req.ip, user_agent := req.user_agent, is_active := true },
          payloadOfClaims_encode _, payloadOfClaims_encode _,
          rfl, rfl, rfl, rfl, by simp, ?_, rfl, rfl, rfl, rfl, rfl, rfl, rfl⟩
  intro j hj
  have hlt := hfresh j hj
  change j ≠ st.nextUuid ∧ j ≠ st.nextUuid + 1
  exact ⟨Nat.ne_of_lt hlt, Nat.ne_of_lt (Nat.lt_succ_of_lt hlt)⟩

/-- Witness for C5 at a concrete healthy store. -/
theorem c5_witness :
    ∃ pa pr s,
      payloadOfClaims (create_token_pair exUser exReq exCfg 0 stW).1.access_token.claims
        = some pa ∧
      payloadOfClaims (create_token_pair exUser exReq exCfg 0 stW).1.refresh_token.claims
        = some pr ∧
      pa.user_id = exUser.id ∧ pa.type = "access" ∧
      pr.user_id = exUser.id ∧ pr.type = "refresh" ∧
      pa.jti ≠ pr.jti ∧
      (∀ j ∈ stW.issuedJtis, j ≠ pa.jti ∧ j ≠ pr.jti) ∧
      (create_token_pair exUser exReq exCfg 0 stW).2.sessions = stW.sessions ++ [s] ∧
      s.is_active = true ∧ s.userId = exUser.id ∧
      s.access_token_jti = pa.jti ∧
      s.refresh_token = (create_token_pair exUser exReq exCfg 0 stW).1.refresh_token ∧
      s.expires_at = 0 + exCfg.refreshLifetime ∧
      (create_token_pair exUser exReq exCfg 0 stW).2.issuedJtis
        = stW.issuedJtis ++ [pa.jti, pr.jti] :=
  c5_issue_pair exUser exReq exCfg 0 stW (by decide)

/-! ## Claim C6 -/

/-- Claim C6 (confirmed): `revoke_all_user_tokens` returns exactly the number
of the subject's active sessions, deactivates exactly those (sessions of
other subjects or already-inactive ones pass through unchanged), and a second
call with no intervening issuance returns 0. -/
theorem c6_revoke_all (u : DBUser) (st : Store) :
    (revoke_all_user_tokens u st).1
        = (st.sessions.filter (fun s => s.userId == u.id && s.is_active)).length ∧
    (∀ s ∈ (revoke_all_user_tokens u st).2.sessions, s.userId = u.id →
      s.is_active = false) ∧
    (∀ s ∈ st.sessions, ¬(s.userId = u.id ∧ s.is_active = true) →
      s ∈ (revoke_all_user_tokens u st).2.sessions) ∧
    (revoke_all_user_tokens u (revoke_all_user_tokens u st).2).1 = 0 := by
  have hinactive : ∀ s ∈ (revoke_all_user_tokens u st).2.sessions,
      s.userId = u.id → s.is_active = false := by
    intro s hs hu
    simp only [revoke_all_user_tokens, List.mem_map] at hs
    obtain ⟨s0, hs0, rfl⟩ := hs
    cases hp : (s0.userId == u.id && s0.is_active) with
    | true => simp [hp]
    | false =>
        simp only [hp, Bool.false_eq_true, if_false] at hu ⊢
        simp only [hu, beq_self_eq_true, Bool.true_and] at hp
        exact hp
  refine ⟨rfl, hinactive, ?_, ?_⟩
  · intro s hs hnp
    simp only [revoke_all_user_tokens, List.mem_map]
    refine ⟨s, hs, ?_⟩
    have hfalse : (s.userId == u.id && s.is_active) = false := by
      cases hb : (s.userId == u.id && s.is_active) with
      | false => rfl
      | true =>
          simp only [Bool.and_eq_true, beq_iff_eq] at hb
          exact absurd ⟨hb.1, hb.2⟩ hnp
    simp [hfalse]
  · rw [show (revoke_all_user_tokens u (revoke_all_user_tokens u st).2).1
        = ((revoke_all_user_tokens u st).2.sessions.filter
            (fun s => s.userId == u.id && s.is_active)).length from rfl]
    rw [List.length_eq_zero, List.filter_eq_nil_iff]
    intro s hs
    have h2 := hinactive s hs
    by_cases hid : s.userId = u.id
    · simp [h2 hid]
    · simp [hid]

/-- `revoke_all_user_tokens` witness instance. -/
theorem c6_witness :
    (revoke_all_user_tokens exUser stW).1
      = (stW.sessions.filter (fun s => s.userId == exUser.id && s.is_active)).length ∧
    (revoke_all_user_tokens exUser (revoke_all_user_tokens exUser stW).2).1 = 0 :=
  ⟨(c6_revoke_all exUser stW).1, (c6_revoke_all exUser stW).2.2.2⟩

/-! ## Claims C9 and C10: the login view -/

theorem log_login_attempt_users (st : Store) (e : String) (req : Request) (b : Bool)
    (r : Option String) : (log_login_attempt st e req b r).users = st.users := rfl

theorem djangoAuthenticate_log (st : Store) (a : String) (req : Request) (b : Bool)
    (r : Option String) (d f : String) :
    djangoAuthenticate (log_login_attempt st a req b r) d f = djangoAuthenticate st d f :=
  rfl

theorem create_token_pair_attempts (user : DBUser) (req : Request) (cfg : Config)
    (now : Nat) (st : Store) :
    (create_token_pair user req cfg now st).2.attempts = st.attempts := rfl

/-- Claim C9, counterexample: two login requests that differ only in whether
an account with the email exists (no account versus an account with a
different password) receive different responses — the messages disagree. -/
theorem c9_counterexample :
    (login_post "a@b.c" "wrong" exReq exCfg 0 stC1).1 ≠
      (login_post "a@b.c" "wrong" exReq exCfg 0 stW).1 := by
  decide

/-- Claim C9 (amended): the two failure responses share the error kind
`AuthenticationError` and status code 401 but carry different messages, so
the user-not-found versus wrong-password distinction IS exposed to the
caller, besides being recorded as distinct `failure_reason`s in the audit
log. -/
theorem c9_login_failure_distinguishes (st : Store) (email password : String)
    (req : Request) (cfg : Config) (now : Nat) (e pw : String)
    (hv : validate_login_data email password = some (e, pw))
    (hauth : djangoAuthenticate st e pw = none) :
    (st.users.any (fun u => u.email == e) = true →
      (login_post email password req cfg now st).1 = LoginOutcome.failure
        { error := "AuthenticationError", message := "Invalid password.",
          status_code := 401 } ∧
      (login_post email password req cfg now st).2.attempts = st.attempts ++
        [{ email := e, ip_address := req.ip, user_agent := req.user_agent,
           success := false, failure_reason := none },
         { email := e, ip_address := req.ip, user_agent := req.user_agent,
           success := false, failure_reason := some "invalid_password" }]) ∧
    (st.users.any (fun u => u.email == e) = false →
      (login_post email password req cfg now st).1 = LoginOutcome.failure
        { error := "AuthenticationError",
          message := "No account found with this email address.",
          status_code := 401 } ∧
      (login_post email password req cfg now st).2.attempts = st.attempts ++
        [{ email := e, ip_address := req.ip, user_agent := req.user_agent,
           success := false, failure_reason := none },
         { email := e, ip_address := req.ip, user_agent := req.user_agent,
           success := false, failure_reason := some "user_not_found" }]) := by
  constructor
  · intro hex
    simp only [login_post, hv, djangoAuthenticate_log, hauth, log_login_attempt_users,
      hex, if_true]
    refine ⟨by trivial, ?_⟩
    simp [log_login_attempt, List.append_assoc]
  · intro hex
    simp only [login_post, hv, djangoAuthenticate_log, hauth, log_login_attempt_users,
      hex, Bool.false_eq_true, if_false]
    refine ⟨by trivial, ?_⟩
    simp [log_login_attempt, List.append_assoc]

/-- Witness for C9: wrong password against an existing account concretely
yields the "Invalid password." response. -/
theorem c9_witness :
    (login_post "a@b.c" "wrong" exReq exCfg 0 stW).1 = LoginOutcome.failure
      { error := "AuthenticationError", message := "Invalid password.",
        status_code := 401 } :=
  ((c9_login_failure_distinguishes stW "a@b.c" "wrong" exReq exCfg 0 "a@b.c" "wrong"
    (by decide) (by decide)).1 (by decide)).1

/-- Claim C10 (confirmed): every login request that passes field validation
first appends a `success=False` audit record with no failure reason, before
credentials are checked; a login that ends in success leaves exactly two
records for the attempt — that `success=False` one and a `success=True`
one. -/
theorem c10_login_audit (email password : String) (req : Request) (cfg : Config)
    (now : Nat) (st : Store) (e pw : String)
    (hv : validate_login_data email password = some (e, pw)) :
    (∃ rest, (login_post email password req cfg now st).2.attempts =
        st.attempts ++
          ({ email := e, ip_address := req.ip, user_agent := req.user_agent,
             success := false, failure_reason := none } : LoginAttempt) :: rest) ∧
    (∀ tokens, (login_post email password req cfg now st).1
          = LoginOutcome.success tokens →
      (login_post email password req cfg now st).2.attempts =
        st.attempts ++
          [{ email := e, ip_address := req.ip, user_agent := req.user_agent,
             success := false, failure_reason := none },
           { email := e, ip_address := req.ip, user_agent := req.user_agent,
             success := true, failure_reason := none }]) := by
  cases hda : djangoAuthenticate st e pw with
  | none =>
      cases hex : st.users.any (fun u => u.email == e) with
      | true =>
          simp only [login_post, hv, djangoAuthenticate_log, hda,
            log_login_attempt_users, hex, if_true]
          constructor
          · refine ⟨[{ email := e, ip_address := req.ip, user_agent := req.user_agent,
                       success := false, failure_reason := some "invalid_password" }], ?_⟩
            simp [log_login_attempt, List.append_assoc]
          · intro tokens htok
            simp at htok
      | false =>
          simp only [login_post, hv, djangoAuthenticate_log, hda,
            log_login_attempt_users, hex, Bool.false_eq_true, if_false]
          constructor
          · refine ⟨[{ email := e, ip_address := req.ip, user_agent := req.user_agent,
                       success := false, failure_reason := some "user_not_found" }], ?_⟩
            simp [log_login_attempt, List.append_assoc]
          · intro tokens htok
            simp at htok
  | some user =>
      cases hact : user.is_active with
      | false =>
          simp only [login_post, hv, djangoAuthenticate_log, hda, hact,
            Bool.not_false, if_true]
          constructor
          · refine ⟨[{ email := e, ip_address := req.ip, user_agent := req.user_agent,
                       success := false, failure_reason := some "account_disabled" }], ?_⟩
            simp [log_login_attempt, List.append_assoc]
          · intro tokens htok
            simp at htok
      | true =>
          simp only [login_post, hv, djangoAuthenticate_log, hda, hact,
            Bool.not_true, Bool.false_eq_true, if_false]
          constructor
          · refine ⟨[{ email := e, ip_address := req.ip, user_agent := req.user_agent,
                       success := true, failure_reason := none }], ?_⟩
            simp [log_login_attempt, create_token_pair_attempts, List.append_assoc]
          · intro tokens htok
            simp [log_login_attempt, create_token_pair_attempts, List.append_assoc]

/-- Witness for C10: a concretely successful login leaves the two audit
records. -/
theorem c10_witness :
    (login_post "a@b.c" "pw" exReq exCfg 0 stW).2.attempts =
      stW.attempts ++
        [{ email := "a@b.c", ip_address := exReq.ip, user_agent := exReq.user_agent,
           success := false, failure_reason := none },
         { email := "a@b.c", ip_address := exReq.ip, user_agent := exReq.user_agent,
           success := true, failure_reason := none }] :=
  (c10_login_audit "a@b.c" "pw" exReq exCfg 0 stW "a@b.c" "pw" (by decide)).2
    (create_token_pair exUser exReq exCfg 0
      (log_login_attempt stW "a@b.c" exReq false none)).1 (by decide)

/-! ## Claim C2: revocation is terminal -/

theorem authenticate_token_ok_session {tok : Token} {st : Store} {now : Nat}
    {cfg : Config} {r : DBUser × TokenPayload}
    (h : authenticate_token tok st now cfg = Except.ok r) :
    ∃ p, payloadOfClaims tok.claims = some p ∧
      ∃ s ∈ st.sessions, s.access_token_jti = p.jti ∧ s.is_active = true := by
  unfold authenticate_token at h
  split at h
  · cases h
  · cases h
  · rename_i q hdec
    obtain ⟨-, hpc, -⟩ := jwtDecode_ok hdec
    split at h
    · cases h
    · split at h
      · cases h
      · rename_i u' hfu
        split at h
        · rename_i hv
          unfold verify_token_session at hv
          cases hf : st.sessions.find?
              (fun s => s.access_token_jti == q.jti && s.userId == u'.id && s.is_active) with
          | none => rw [hf] at hv; cases hv
          | some s =>
              have hp := List.find?_some hf
              have hm := List.mem_of_find?_eq_some hf
              simp only [Bool.and_eq_true, beq_iff_eq] at hp
              exact ⟨q, hpc, s, hm, hp.1.1, hp.2⟩
        · cases h

theorem mem_deactivate_of_active {st : Store} {sid : Nat} {x : UserSession}
    (hx : x ∈ (deactivateSession st sid).sessions) (hact : x.is_active = true) :
    x ∈ st.sessions ∧ x.sessionId ≠ sid := by
  simp only [deactivateSession, List.mem_map] at hx
  obtain ⟨s0, hs0, rfl⟩ := hx
  cases hb : (s0.sessionId == sid) with
  | true => simp only [hb, if_true] at hact; cases hact
  | false =>
      simp only [hb, Bool.false_eq_true, if_false] at hact ⊢
      exact ⟨hs0, by simpa using hb⟩

theorem revoke_token_true {rt : Token} {st st' : Store}
    (h : revoke_token rt st = (true, st')) :
    ∃ s0 ∈ st.sessions, s0.refresh_token = rt ∧ s0.is_active = true ∧
      st' = deactivateSession st s0.sessionId := by
  unfold revoke_token at h
  cases hf : st.sessions.find? (fun s => s.refresh_token == rt && s.is_active) with
  | none => rw [hf] at h; simp at h
  | some s0 =>
      rw [hf] at h
      have hp := List.find?_some hf
      have hmem := List.mem_of_find?_eq_some hf
      simp only [Bool.and_eq_true, beq_iff_eq] at hp
      rw [Prod.mk.injEq] at h
      exact ⟨s0, hmem, hp.1, hp.2, h.2.symm⟩

theorem revoked_session_gone {rt : Token} {st st' : Store} {s0 : UserSession}
    (hwf : st.wf) (hmem : s0 ∈ st.sessions) (hrt : s0.refresh_token = rt)
    (hst' : st' = deactivateSession st s0.sessionId) :
    (∀ x ∈ st'.sessions, x.is_active = true → x.refresh_token ≠ rt) ∧
    (∀ x ∈ st'.sessions, x.is_active = true →
      x.access_token_jti ≠ s0.access_token_jti) := by
  obtain ⟨-, -, hjti, hrtu, -, -⟩ := hwf
  subst hst'
  constructor
  · intro x hx hxact hxrt
    obtain ⟨hxmem, hxsid⟩ := mem_deactivate_of_active hx hxact
    exact hxsid (congrArg UserSession.sessionId
      (hrtu x hxmem s0 hmem (hxrt.trans hrt.symm)))
  · intro x hx hxact hxjti
    obtain ⟨hxmem, hxsid⟩ := mem_deactivate_of_active hx hxact
    exact hxsid (congrArg UserSession.sessionId (hjti x hxmem s0 hmem hxjti))

theorem refresh_err_of_no_active {rt : Token} {st : Store} {cfg : Config} {now : Nat}
    (hno : ∀ x ∈ st.sessions, x.is_active = true → x.refresh_token ≠ rt) :
    ∃ e, refresh_access_token rt cfg now st = (Except.error e, st) := by
  cases hdec : jwtDecode rt cfg.keyId now with
  | error e0 =>
      exact ⟨AuthError.authenticationFailed "Invalid or expired refresh token",
        by simp only [refresh_access_token, hdec]⟩
  | ok p =>
      cases hty : (p.type != "refresh") with
      | true =>
          exact ⟨AuthError.authenticationFailed "Invalid refresh token type",
            by simp only [refresh_access_token, hdec, hty, if_true]⟩
      | false =>
          cases hfu : findActiveUser st p.user_id with
          | none =>
              exact ⟨AuthError.authenticationFailed "Invalid refresh token",
                by simp only [refresh_access_token, hdec, hty, Bool.false_eq_true,
                  if_false, hfu]⟩
          | some u =>
              have hf : st.sessions.find?
                  (fun s => s.refresh_token == rt && s.userId == u.id && s.is_active)
                    = none := by
                rw [List.find?_eq_none]
                intro x hxmem hxp
                simp only [Bool.and_eq_true, beq_iff_eq] at hxp
                exact hno x hxmem hxp.2 hxp.1.1
              exact ⟨AuthError.authenticationFailed "Invalid refresh token",
                by simp only [refresh_access_token, hdec, hty, Bool.false_eq_true,
                  if_false, hfu, hf]⟩

/-- Claim C2 (confirmed): once `revoke_token` succeeds on an active session,
any `refresh_access_token` with that refresh token errors (leaving the store
unchanged), any `_authenticate_token` with a token carrying that session's
current `access_token_jti` errors, and a second `revoke_token` with the same
refresh token returns `false` without erroring and without touching the
store. -/
theorem c2_revoke_terminal (st : Store) (rt : Token) (st' : Store) (hwf : st.wf)
    (hrev : revoke_token rt st = (true, st')) :
    (∀ cfg now, ∃ e, refresh_access_token rt cfg now st' = (Except.error e, st')) ∧
    (∀ s ∈ st.sessions, s.refresh_token = rt → s.is_active = true →
      ∀ tok p now cfg, payloadOfClaims tok.claims = some p →
        p.jti = s.access_token_jti →
        ∃ e, authenticate_token tok st' now cfg = Except.error e) ∧
    revoke_token rt st' = (false, st') := by
  obtain ⟨s0, hmem, hrt, hact, hst'⟩ := revoke_token_true hrev
  obtain ⟨hnort, hnojti⟩ := revoked_session_gone hwf hmem hrt hst'
  have hfnone : st'.sessions.find? (fun s => s.refresh_token == rt && s.is_active)
      = none := by
    rw [List.find?_eq_none]
    intro x hx hxp
    simp only [Bool.and_eq_true, beq_iff_eq] at hxp
    exact hnort x hx hxp.2 hxp.1
  refine ⟨fun cfg now => refresh_err_of_no_active hnort, ?_, ?_⟩
  · intro s hsmem hsrt hsact tok p now cfg hpc hjti
    obtain ⟨-, -, -, hrtu, -, -⟩ := hwf
    have hss0 : s = s0 := hrtu s hsmem s0 hmem (hsrt.trans hrt.symm)
    subst hss0
    cases hres : authenticate_token tok st' now cfg with
    | error e => exact ⟨e, rfl⟩
    | ok r =>
        exfalso
        obtain ⟨p2, hpc2, s2, hs2mem, hs2j, hs2act⟩ := authenticate_token_ok_session hres
        have hp2 : p2 = p := by
          have := hpc2.symm.trans hpc
          exact (Option.some.injEq _ _ ▸ this)
        subst hp2
        exact hnojti s2 hs2mem hs2act (hs2j.trans hjti)
  · simp only [revoke_token, hfnone]

/-- Witness for C2 on the healthy single-session store. -/
theorem c2_witness :
    (∃ e, refresh_access_token exRefreshToken exCfg 5
        (revoke_token exRefreshToken stW).2
      = (Except.error e, (revoke_token exRefreshToken stW).2)) ∧
    (∃ e, authenticate_token exToken (revoke_token exRefreshToken stW).2 5 exCfg
      = Except.error e) ∧
    revoke_token exRefreshToken (revoke_token exRefreshToken stW).2
      = (false, (revoke_token exRefreshToken stW).2) := by
  have h := c2_revoke_terminal stW exRefreshToken (revoke_token exRefreshToken stW).2
    (by decide) (by decide)
  exact ⟨h.1 exCfg 5,
    h.2.1 exSession (by decide) (by decide) (by decide) exToken exPayload 5 exCfg
      (by decide) (by decide),
    h.2.2⟩

/-! ## Claim C4: refresh rotates only the access-token linkage -/

theorem refresh_ok_elim {rt : Token} {cfg : Config} {now : Nat} {st : Store}
    {tok' : Token} {st' : Store}
    (h : refresh_access_token rt cfg now st = (Except.ok tok', st')) :
    ∃ (u : DBUser) (session : UserSession),
      session ∈ st.sessions ∧ session.refresh_token = rt ∧
      session.is_active = true ∧ session.is_expired now = false ∧
      tok' = jwtEncode
        { user_id := u.id, email := some u.email, type := "access",
          jti := st.nextUuid, iat := now, exp := now + cfg.accessLifetime } cfg.keyId ∧
      st' = { st with
        sessions := st.sessions.map (fun x =>
          if x.sessionId == session.sessionId then
            { x with access_token_jti := st.nextUuid } else x),
        nextUuid := st.nextUuid + 1,
        issuedJtis := st.issuedJtis ++ [st.nextUuid] } := by
  cases hdec : jwtDecode rt cfg.keyId now with
  | error e0 => simp [refresh_access_token, hdec] at h
  | ok p =>
      cases hty : (p.type != "refresh") with
      | true => simp [refresh_access_token, hdec, hty] at h
      | false =>
          cases hfu : findActiveUser st p.user_id with
          | none => simp [refresh_access_token, hdec, hty, hfu] at h
          | some u =>
              cases hfs : st.sessions.find?
                  (fun s => s.refresh_token == rt && s.userId == u.id && s.is_active) with
              | none => simp [refresh_access_token, hdec, hty, hfu, hfs] at h
              | some session =>
                  cases hexp : session.is_expired now with
                  | true => simp [refresh_access_token, hdec, hty, hfu, hfs, hexp] at h
                  | false =>
                      have hp := List.find?_some hfs
                      have hmem := List.mem_of_find?_eq_some hfs
                      simp only [Bool.and_eq_true, beq_iff_eq] at hp
                      simp only [refresh_access_token, hdec, hty, Bool.false_eq_true,
                        if_false, hfu, hfs, hexp, Prod.mk.injEq,
                        Except.ok.injEq] at h
                      obtain ⟨h1, h2⟩ := h
                      exact ⟨u, session, hmem, hp.1.1, hp.2, hexp, h1.symm, h2.symm⟩

/-- Claim C4 (confirmed): a successful `refresh_access_token` rewrites only
the matched session's `access_token_jti` — every other field of that row and
every other row is untouched — and the freshly minted `jti` differs from the
old one, so any token still carrying the old `jti` fails session
verification afterwards, at any time, even before its own expiry. -/
theorem c4_refresh_frame (st : Store) (rt : Token) (cfg : Config) (now : Nat)
    (tok' : Token) (st' : Store) (hwf : st.wf)
    (hok : refresh_access_token rt cfg now st = (Except.ok tok', st')) :
    ∃ p', payloadOfClaims tok'.claims = some p' ∧
    ∃ s ∈ st.sessions, s.refresh_token = rt ∧ s.is_active = true ∧
      st'.sessions = st.sessions.map (fun x =>
        if x.sessionId == s.sessionId then
          { x with access_token_jti := p'.jti } else x) ∧
      st'.users = st.users ∧ st'.attempts = st.attempts ∧
      p'.jti ≠ s.access_token_jti ∧
      (∀ x ∈ st.sessions, x.sessionId ≠ s.sessionId → x ∈ st'.sessions) ∧
      ({ s with access_token_jti := p'.jti } ∈ st'.sessions) ∧
      (∀ tok2 p2, payloadOfClaims tok2.claims = some p2 →
        p2.jti = s.access_token_jti → ∀ now2 cfg2,
          ∃ e, authenticate_token tok2 st' now2 cfg2 = Except.error e) := by
  obtain ⟨u, session, hmem, hrt, hact, hnexp, htok, hst'⟩ := refresh_ok_elim hok
  obtain ⟨-, hsid, hjtiu, -, -, hbound⟩ := hwf
  have hold : session.access_token_jti < st.nextUuid := hbound session hmem
  have hnojti : ∀ x ∈ st'.sessions, x.access_token_jti ≠ session.access_token_jti := by
    intro x hx
    rw [hst'] at hx
    simp only [List.mem_map] at hx
    obtain ⟨x0, hx0, rfl⟩ := hx
    cases hb : (x0.sessionId == session.sessionId) with
    | true =>
        simp only [hb, if_true]
        exact fun hcontra => Nat.ne_of_gt hold hcontra
    | false =>
        simp only [hb, Bool.false_eq_true, if_false]
        intro hcontra
        have : x0 = session := hjtiu x0 hx0 session hmem hcontra
        rw [this] at hb
        simp at hb
  refine ⟨{ user_id := u.id, email := some u.email, type := "access",
            jti := st.nextUuid, iat := now, exp := now + cfg.accessLifetime },
          by rw [htok]; exact payloadOfClaims_encode _,
          session, hmem, hrt, hact, by rw [hst'], by rw [hst'], by rw [hst'],
          Nat.ne_of_gt hold, ?_, ?_, ?_⟩
  · intro x hx hxsid
    rw [hst']
    simp only [List.mem_map]
    refine ⟨x, hx, ?_⟩
    have hb : (x.sessionId == session.sessionId) = false := by simpa using hxsid
    simp [hb]
  · rw [hst']
    simp only [List.mem_map]
    refine ⟨session, hmem, ?_⟩
    simp
  · intro tok2 p2 hpc2 hj2 now2 cfg2
    cases hres : authenticate_token tok2 st' now2 cfg2 with
    | error e => exact ⟨e, rfl⟩
    | ok r =>
        exfalso
        obtain ⟨p3, hpc3, s3, hs3mem, hs3j, -⟩ := authenticate_token_ok_session hres
        have hp3 : p3 = p2 := Option.some.injEq _ _ ▸ (hpc3.symm.trans hpc2)
        subst hp3
        exact hnojti s3 hs3mem (hs3j.trans hj2)

/-- Witness for C4: after the concrete refresh, the old access token fails
authentication even though it is unexpired. -/
theorem c4_witness :
    ∃ e, authenticate_token exToken exRotated 5 exCfg = Except.error e := by
  obtain ⟨p', hpc, s, hsmem, hsrt, hsact, hsess, husers, hatt, hne, hkeep, hupd, hfail⟩ :=
    c4_refresh_frame stW exRefreshToken exCfg 5 (jwtEncode exNewAccessPayload 7)
      exRotated (by decide) (by decide)
  have hs : s = exSession := by simpa [stW] using hsmem
  subst hs
  exact hfail exToken exPayload (by decide) (by decide) 5 exCfg

/-! ## Claim C3: refresh with an expired refresh token -/

/-- Claim C3, counterexample: the healthy store one second after its refresh
token's expiry.  `refresh_access_token` fails, but the store is returned
unchanged and the matching session — although expired — is still
`is_active = true`: it is NOT deactivated, because `jwt.decode` raises
`ExpiredSignatureError` before the session-expiry branch can run (token
`exp` and session `expires_at` are the same instant for every pair minted by
`create_token_pair`). -/
theorem c3_counterexample :
    (refresh_access_token exRefreshToken exCfg 101 stW).1 =
      Except.error (AuthError.authenticationFailed "Invalid or expired refresh token") ∧
    (refresh_access_token exRefreshToken exCfg 101 stW).2 = stW ∧
    ∃ s ∈ (refresh_access_token exRefreshToken exCfg 101 stW).2.sessions,
      s.refresh_token = exRefreshToken ∧ s.is_expired 101 = true ∧
      s.is_active = true := by
  refine ⟨by decide, by decide, exSession, ?_, ?_, ?_, ?_⟩ <;> decide

/-- Claim C3 (amended): calling Refresh with a refresh token whose own `exp`
has passed fails with the decode-stage authentication error and leaves the
store — in particular the matching session's `is_active` flag — completely
unchanged, and a repeated call fails identically with no state change; the
session is never deactivated on this path, since for tokens minted by
`create_token_pair` the token `exp` equals the session `expires_at`, so the
in-code deactivation branch is unreachable for them. -/
theorem c3_expired_refresh (st : Store) (cfg : Config) (now now2 : Nat) (rt : Token)
    (p : TokenPayload) (hpc : payloadOfClaims rt.claims = some p)
    (h1 : p.exp < now) (h2 : p.exp < now2) :
    refresh_access_token rt cfg now st =
      (Except.error (AuthError.authenticationFailed "Invalid or expired refresh token"),
       st) ∧
    refresh_access_token rt cfg now2 (refresh_access_token rt cfg now st).2 =
      (Except.error (AuthError.authenticationFailed "Invalid or expired refresh token"),
       st) := by
  have hdec : ∀ n, p.exp < n → ∃ e0, jwtDecode rt cfg.keyId n = Except.error e0 := by
    intro n hn
    by_cases hk : rt.keyId = cfg.keyId
    · exact ⟨JwtError.expired, by simp [jwtDecode, hk, hpc, hn]⟩
    · exact ⟨JwtError.malformed, by simp [jwtDecode, hk]⟩
  obtain ⟨e0, hdec1⟩ := hdec now h1
  obtain ⟨e2, hdec2⟩ := hdec now2 h2
  have hfirst : refresh_access_token rt cfg now st =
      (Except.error (AuthError.authenticationFailed "Invalid or expired refresh token"),
       st) := by
    simp only [refresh_access_token, hdec1]
  refine ⟨hfirst, ?_⟩
  rw [hfirst]
  simp only [refresh_access_token, hdec2]

/-- Witness for C3 (amended) at the concrete expired store. -/
theorem c3_witness :
    refresh_access_token exRefreshToken exCfg 101 stW =
      (Except.error (AuthError.authenticationFailed "Invalid or expired refresh token"),
       stW) ∧
    refresh_access_token exRefreshToken exCfg 102
        (refresh_access_token exRefreshToken exCfg 101 stW).2 =
      (Except.error (AuthError.authenticationFailed "Invalid or expired refresh token"),
       stW) :=
  c3_expired_refresh stW exCfg 101 102 exRefreshToken exRefreshPayload
    (by decide) (by decide) (by decide)

end CampusBook
